import Mathlib

/-!
Shallow embedding of the health-check scoring service
(`src/app.py`, the Flask prediction service, and `src/app_simple.py`,
the mock scoring variant) together with theorems checking the
specification's claims about payload validation, batch scoring, the
model-handle lifecycle and the HTTP error contract.

JSON values are modelled by the inductive `Json`; Python-level
operations that can raise (`key in x`, `x[key]`, `v > 0`) are modelled
as `Except String`-valued functions reproducing Python's per-type
behaviour; the opaque scikit-learn classifier is an abstract function
from a raw feature list to an `Except`-valued prediction outcome.
-/

set_option autoImplicit false

/-- Decoded JSON values, as returned by `request.get_json()`.
Numbers are modelled as rationals (every finite JSON literal is one). -/
inductive Json where
  | null
  | bool (b : Bool)
  | num (q : ℚ)
  | str (s : String)
  | arr (xs : List Json)
  | obj (fields : List (String × Json))

/-- Python equality of a JSON value against a string constant:
only a string with the same characters compares equal. -/
def Json.eqStr (j : Json) (key : String) : Bool :=
  match j with
  | Json.str s => s = key
  | _ => false

/-- Whether an object value has a field with the given key
(`false` on every non-object). -/
def Json.hasKey (j : Json) (key : String) : Bool :=
  match j with
  | Json.obj fields => fields.any (fun kv => kv.fst = key)
  | _ => false

/-- `needle` is a character-wise prefix of `hay`. -/
def charsStartWith : List Char → List Char → Bool
  | [], _ => true
  | _ :: _, [] => false
  | c :: cs, d :: ds => c = d && charsStartWith cs ds

/-- `needle` occurs as a contiguous substring of `hay`
(Python's `in` on strings). -/
def charsContain (needle : List Char) : List Char → Bool
  | [] => charsStartWith needle []
  | d :: ds => charsStartWith needle (d :: ds) || charsContain needle ds

/-- Python's membership test `key in j` for a string key: key lookup on
dicts, substring test on strings, element equality on lists, and a
`TypeError` on `null`, booleans and numbers. -/
def pyContains (j : Json) (key : String) : Except String Bool :=
  match j with
  | Json.obj fields => Except.ok (fields.any (fun kv => kv.fst = key))
  | Json.str s => Except.ok (charsContain key.toList s.toList)
  | Json.arr xs => Except.ok (xs.any (fun x => Json.eqStr x key))
  | _ => Except.error "argument of type is not iterable"

/-- First value bound to `key` in an object's field list. -/
def lookupField : List (String × Json) → String → Option Json
  | [], _ => none
  | (k, v) :: rest, key => if k = key then some v else lookupField rest key

/-- Python's subscript `j[key]` for a string key: dict lookup on
objects, a `TypeError` on strings and lists (string indices must be
integers), and a `TypeError` on everything else. -/
def pyGetItem (j : Json) (key : String) : Except String Json :=
  match j with
  | Json.obj fields =>
    match lookupField fields key with
    | some v => Except.ok v
    | none => Except.error "KeyError"
  | _ => Except.error "object is not subscriptable"

/-- Python's comparison `v > 0` on a JSON value: defined on numbers and
booleans (`True` is `1`, `False` is `0`), a `TypeError` otherwise. -/
def pyGtZero (j : Json) : Except String Bool :=
  match j with
  | Json.num q => Except.ok (decide ((0 : ℚ) < q))
  | Json.bool b => Except.ok b
  | _ => Except.error "not supported between instances"

/-! ### `src/app_simple.py` — the mock `/score` endpoint -/

/-- The per-row error entry `{"error": "Invalid row format"}` appended
by `score` for a row that is not a list or is empty
(`src/app_simple.py` line 46). -/
def invalidRowEntry : Json :=
  Json.obj [("error", Json.str "Invalid row format")]

/-- The mock prediction entry built from the sign of the first feature
(`src/app_simple.py` lines 38-44 and 53-59). -/
def mockEntry (pos : Bool) : Json :=
  Json.obj
    [("prediction", Json.num (if pos then 1 else 0)),
     ("probabilities",
       Json.arr (if pos then [Json.num (3/10), Json.num (7/10)]
                 else [Json.num (7/10), Json.num (3/10)])),
     ("model_version", Json.str "1.0.0")]

/-- Row shape check of the batch loop: `isinstance(row, list) and
len(row) >= 1` (`src/app_simple.py` line 36). -/
def rowOk (row : Json) : Bool :=
  match row with
  | Json.arr items => decide (1 ≤ items.length)
  | _ => false

/-- One iteration of the batch loop of `score`: a well-shaped row
yields a mock prediction from its first element (whose comparison with
`0` can raise), any other row yields the per-row error entry. -/
def rowEntry (row : Json) : Except String Json :=
  match row with
  | Json.arr items =>
    if 1 ≤ items.length then
      match pyGtZero (items.headD Json.null) with
      | Except.ok pos => Except.ok (mockEntry pos)
      | Except.error e => Except.error e
    else Except.ok invalidRowEntry
  | _ => Except.ok invalidRowEntry

/-- The batch loop of `score` over `data['data']`
(`src/app_simple.py` lines 34-46): entries accumulate in input order,
and a raise inside any iteration aborts the whole request. -/
def scoreRows : List Json → Except String (List Json)
  | [] => Except.ok []
  | row :: rest =>
    match rowEntry row with
    | Except.error e => Except.error e
    | Except.ok entry =>
      match scoreRows rest with
      | Except.error e => Except.error e
      | Except.ok entries => Except.ok (entry :: entries)

/-- Evaluation of the condition `'data' in data and
isinstance(data['data'], list)` (`src/app_simple.py` line 33):
`some rows` when the `data` branch is taken, `none` when control falls
through to the `features` branch, an error when the test itself raises. -/
def dataBranchRows (body : Json) : Except String (Option (List Json)) :=
  match pyContains body "data" with
  | Except.error e => Except.error e
  | Except.ok false => Except.ok none
  | Except.ok true =>
    match pyGetItem body "data" with
    | Except.error e => Except.error e
    | Except.ok (Json.arr rows) => Except.ok (some rows)
    | Except.ok _ => Except.ok none

/-- Evaluation of the condition `'features' in data and
isinstance(data['features'], list)` (`src/app_simple.py` line 49). -/
def featuresBranchItems (body : Json) : Except String (Option (List Json)) :=
  match pyContains body "features" with
  | Except.error e => Except.error e
  | Except.ok false => Except.ok none
  | Except.ok true =>
    match pyGetItem body "features" with
    | Except.error e => Except.error e
    | Except.ok (Json.arr items) => Except.ok (some items)
    | Except.ok _ => Except.ok none

/-- Body of the `try` block of `score` (`src/app_simple.py` lines
30-64), producing a status code and response body, or the exception
text caught by the handler's `except`. -/
def scoreCore (body : Json) : Except String (Nat × Json) :=
  match dataBranchRows body with
  | Except.error e => Except.error e
  | Except.ok (some rows) =>
    match scoreRows rows with
    | Except.error e => Except.error e
    | Except.ok entries => Except.ok (200, Json.arr entries)
  | Except.ok none =>
    match featuresBranchItems body with
    | Except.error e => Except.error e
    | Except.ok (some items) =>
      if 1 ≤ items.length then
        match pyGtZero (items.headD Json.null) with
        | Except.error e => Except.error e
        | Except.ok pos => Except.ok (200, mockEntry pos)
      else
        Except.ok (400, Json.obj [("error", Json.str "Need at least 1 feature")])
    | Except.ok none =>
      Except.ok (400, Json.obj
        [("error", Json.str "Invalid input format. Use 'data' or 'features'.")])

/-- The `/score` handler of `src/app_simple.py` (lines 27-71): the
`try` body, with any raised exception converted to the 500 error
envelope (`now` stands for the wall-clock timestamp string). -/
def score (now : String) (body : Json) : Nat × Json :=
  match scoreCore body with
  | Except.ok resp => resp
  | Except.error e =>
    (500, Json.obj [("error", Json.str e), ("timestamp", Json.str now)])

example :
    score "t" (Json.obj [("data", Json.arr
      [Json.arr [Json.num 1], Json.arr [], Json.arr [Json.num 2]])]) =
    (200, Json.arr [mockEntry true, invalidRowEntry, mockEntry true]) := rfl

example :
    score "t" (Json.obj [("features", Json.arr [Json.num (-1)])]) =
    (200, mockEntry false) := rfl

example :
    score "t" (Json.obj [("data", Json.arr [Json.num 1, Json.num 2])]) =
    (200, Json.arr [invalidRowEntry, invalidRowEntry]) := rfl

example : score "t" Json.null =
    (500, Json.obj [("error", Json.str "argument of type is not iterable"),
                    ("timestamp", Json.str "t")]) := rfl

/-! ### `src/app.py` — model handle and Flask endpoints -/

/-- A classifier's single-row inference outcome: the class label from
`model.predict` and the class-probability row from `model.predict_proba`. -/
structure PredOut where
  prediction : Int
  probabilities : List ℚ

/-- The opaque trained classifier wrapped by the model handle: a
function from the raw feature list (arbitrary JSON elements reach it,
since the handler validates only shape) to an inference outcome or a
raised library error. -/
def Classifier : Type := List Json → Except String PredOut

/-- The `MLModel` handle of `src/app.py` lines 20-24: an optional
resident classifier plus the version string and artifact path. -/
structure MLModel where
  model : Option Classifier
  model_version : String
  model_path : String

/-- `MLModel.__init__` (`src/app.py` lines 21-24). -/
def MLModel.init : MLModel :=
  { model := none, model_version := "1.0.0", model_path := "model.pkl" }

/-- `MLModel.predict` (`src/app.py` lines 62-74): raises
`ValueError("Model not loaded")` when no classifier is resident,
otherwise wraps the classifier's outcome with the handle's version. -/
def MLModel.predict (m : MLModel) (features : List Json) : Except String Json :=
  match m.model with
  | none => Except.error "Model not loaded"
  | some clf =>
    match clf features with
    | Except.error e => Except.error e
    | Except.ok out =>
      Except.ok (Json.obj
        [("prediction", Json.num (out.prediction : ℚ)),
         ("probabilities", Json.arr (out.probabilities.map Json.num)),
         ("model_version", Json.str m.model_version)])

/-- On-disk artifact at the model path: either a serialized classifier
that deserializes successfully, or a corrupt blob. -/
inductive Artifact where
  | good (clf : Classifier)
  | corrupt

/-- Abstract filesystem: contents of each path, `none` when absent. -/
def FS : Type := String → Option Artifact

/-- `joblib.load` on an existing artifact file: yields the classifier,
or raises on a corrupt file. -/
def joblib_load (a : Artifact) : Except String Classifier :=
  match a with
  | Artifact.good clf => Except.ok clf
  | Artifact.corrupt => Except.error "could not deserialize artifact"

/-- `joblib.dump(clf, path)`: writes the serialized classifier at the
path, leaving every other path unchanged. -/
def joblib_dump (clf : Classifier) (path : String) (fs : FS) : FS :=
  fun p => if p = path then some (Artifact.good clf) else fs p

/-- Outcome of the fixed, seeded scikit-learn training procedure
invoked by `train_model` (opaque library behaviour: the fitted
classifier and its held-out accuracy). -/
structure TrainEnv where
  trained : Classifier
  accuracy : ℚ

/-- `MLModel.train_model` (`src/app.py` lines 26-51): replaces the
resident classifier with the freshly fitted one, persists it to the
artifact path, and returns the held-out accuracy. -/
def MLModel.train_model (env : TrainEnv) (m : MLModel) (fs : FS) :
    MLModel × FS × ℚ :=
  ({ m with model := some env.trained },
   joblib_dump env.trained m.model_path fs,
   env.accuracy)

/-- `MLModel.load_model` (`src/app.py` lines 53-60): if the artifact
path exists, `joblib.load` it (a deserialization failure propagates as
an exception); otherwise train a fresh model. -/
def MLModel.load_model (env : TrainEnv) (m : MLModel) (fs : FS) :
    Except String (MLModel × FS) :=
  match fs m.model_path with
  | some a =>
    match joblib_load a with
    | Except.error e => Except.error e
    | Except.ok clf => Except.ok ({ m with model := some clf }, fs)
  | none =>
    match MLModel.train_model env m fs with
    | (m2, fs2, _) => Except.ok (m2, fs2)

/-- The 500 failure envelope of the `/predict` handler
(`src/app.py` lines 139-143). -/
def failBody (e now : String) : Json :=
  Json.obj [("success", Json.bool false), ("error", Json.str e),
            ("timestamp", Json.str now)]

/-- The 200 success envelope of the `/predict` handler
(`src/app.py` lines 131-135). -/
def successBody (result : Json) (now : String) : Json :=
  Json.obj [("success", Json.bool true), ("result", result),
            ("timestamp", Json.str now)]

/-- The `/predict` handler (`src/app.py` lines 111-143): membership
test for `'features'`, shape validation (`isinstance(features, list)
and len(features) == 20`), model invocation, and the broad `except`
converting any raise into the 500 envelope. -/
def predict_route (m : MLModel) (now : String) (body : Json) : Nat × Json :=
  match pyContains body "features" with
  | Except.error e => (500, failBody e now)
  | Except.ok false =>
    (400, Json.obj [("error", Json.str "Features not provided")])
  | Except.ok true =>
    match pyGetItem body "features" with
    | Except.error e => (500, failBody e now)
    | Except.ok (Json.arr xs) =>
      if xs.length = 20 then
        match MLModel.predict m xs with
        | Except.error e => (500, failBody e now)
        | Except.ok result => (200, successBody result now)
      else
        (400, Json.obj
          [("error", Json.str "Features must be a list of 20 numbers")])
    | Except.ok _ =>
      (400, Json.obj
        [("error", Json.str "Features must be a list of 20 numbers")])

/-- The `/readiness` handler (`src/app.py` lines 89-109): 503 with
status and message when no classifier is resident, 200 with status and
timestamp otherwise. -/
def readiness_check (m : MLModel) (now : String) : Nat × Json :=
  match m.model with
  | none =>
    (503, Json.obj [("status", Json.str "not_ready"),
                    ("message", Json.str "Model not loaded")])
  | some _ =>
    (200, Json.obj [("status", Json.str "ready"),
                    ("timestamp", Json.str now)])

/-- The `/metrics` handler (`src/app.py` lines 145-152). -/
def metrics_route (m : MLModel) (now : String) : Nat × Json :=
  (200, Json.obj [("model_version", Json.str m.model_version),
                  ("status", Json.str "active"),
                  ("timestamp", Json.str now)])

/-- The `/retrain` handler (`src/app.py` lines 154-174), success path
(`train_model` is total in this embedding): retrains, then returns the
new handle, filesystem, status and body. -/
def retrain_route (env : TrainEnv) (m : MLModel) (fs : FS) (now : String) :
    MLModel × FS × Nat × Json :=
  match MLModel.train_model env m fs with
  | (m2, fs2, acc) =>
    (m2, fs2, 200,
     Json.obj [("success", Json.bool true),
               ("message", Json.str "Model retrained successfully"),
               ("accuracy", Json.num acc),
               ("timestamp", Json.str now)])

/-! ### Concrete handles, classifiers and payloads used by witnesses -/

/-- A benign total classifier used to instantiate the abstract
classifier parameter in concrete witnesses. -/
def constClassifier : Classifier :=
  fun _ => Except.ok { prediction := 1, probabilities := [3/10, 7/10] }

/-- A handle holding a resident classifier. -/
def loadedModel : MLModel :=
  { model := some constClassifier, model_version := "1.0.0",
    model_path := "model.pkl" }

/-- An empty filesystem: no artifact at any path. -/
def fsEmpty : FS := fun _ => none

/-- A filesystem holding a corrupt artifact at the default model path. -/
def fsCorrupt : FS :=
  fun p => if p = "model.pkl" then some Artifact.corrupt else none

/-- A concrete training outcome. -/
def envW : TrainEnv := { trained := constClassifier, accuracy := 95/100 }

/-- A well-shaped feature list of 20 numbers. -/
def feats20 : List Json := List.replicate 20 (Json.num 1)

/-- A well-shaped `/predict` payload. -/
def goodBody : Json := Json.obj [("features", Json.arr feats20)]

/-- A 20-element feature list whose last element is a string. -/
def featsStr : List Json :=
  List.replicate 19 (Json.num 1) ++ [Json.str "oops"]

/-- A `/predict` payload of correct length containing a non-number. -/
def strElemBody : Json := Json.obj [("features", Json.arr featsStr)]

example : predict_route loadedModel "t" goodBody =
    (200, successBody (Json.obj
      [("prediction", Json.num 1),
       ("probabilities", Json.arr [Json.num (3/10), Json.num (7/10)]),
       ("model_version", Json.str "1.0.0")]) "t") := rfl

example : predict_route MLModel.init "t" goodBody =
    (500, failBody "Model not loaded" "t") := rfl

example : predict_route MLModel.init "t" (Json.str "hello") =
    (400, Json.obj [("error", Json.str "Features not provided")]) := rfl

example : predict_route MLModel.init "t" Json.null =
    (500, failBody "argument of type is not iterable" "t") := rfl

/-- A three-row batch whose middle row is empty. -/
def batchBody3 : Json :=
  Json.obj [("data", Json.arr
    [Json.arr [Json.num 1], Json.arr [], Json.arr [Json.num 2]])]

/-- The rows of `batchBody3`. -/
def rows3 : List Json :=
  [Json.arr [Json.num 1], Json.arr [], Json.arr [Json.num 2]]

/-- The entries `score` produces for `rows3`. -/
def entries3 : List Json := [mockEntry true, invalidRowEntry, mockEntry true]

/-! ### Theorems -/

theorem rowEntry_invalid (row : Json) (h : rowOk row = false) :
    rowEntry row = Except.ok invalidRowEntry := by
  cases row with
  | arr items =>
    simp only [rowOk, decide_eq_false_iff_not] at h
    simp [rowEntry, h]
  | null => rfl
  | bool b => rfl
  | num q => rfl
  | str s => rfl
  | obj fields => rfl

theorem scoreRows_ok_length (rows entries : List Json)
    (h : scoreRows rows = Except.ok entries) :
    entries.length = rows.length := by
  induction rows generalizing entries with
  | nil =>
    simp only [scoreRows] at h
    cases h
    rfl
  | cons row rest ih =>
    simp only [scoreRows] at h
    cases hr : rowEntry row with
    | error e => rw [hr] at h; cases h
    | ok entry =>
      rw [hr] at h
      cases hs : scoreRows rest with
      | error e => rw [hs] at h; cases h
      | ok es =>
        rw [hs] at h
        cases h
        simp [ih es hs]

theorem scoreRows_ok_invalid_at (rows entries : List Json)
    (h : scoreRows rows = Except.ok entries) :
    ∀ i row, rows.get? i = some row → rowOk row = false →
      entries.get? i = some invalidRowEntry := by
  induction rows generalizing entries with
  | nil => intro i row hi; simp at hi
  | cons r rest ih =>
    intro i row hi hok
    simp only [scoreRows] at h
    cases hr : rowEntry r with
    | error e => rw [hr] at h; cases h
    | ok entry =>
      rw [hr] at h
      cases hs : scoreRows rest with
      | error e => rw [hs] at h; cases h
      | ok es =>
        rw [hs] at h
        cases h
        cases i with
        | zero =>
          simp only [List.get?, Option.some.injEq] at hi
          subst hi
          rw [rowEntry_invalid r hok] at hr
          cases hr
          rfl
        | succ n =>
          simp only [List.get?] at hi ⊢
          exact ih es hs n row hi hok

/-- C1: a batch request whose `data` rows include a malformed row does
NOT get a single whole-batch error: the handler returns 200 with an
array mixing per-row successes and per-row `{"error": ...}` entries.
Concretely, three rows with an empty row at index 1 yield a
2-success-1-error partial array. -/
theorem C1_partial_batch_cx :
    score "t" (Json.obj [("data", Json.arr
      [Json.arr [Json.num 1], Json.arr [], Json.arr [Json.num 2]])]) =
    (200, Json.arr [mockEntry true, invalidRowEntry, mockEntry true]) := rfl

/-- C1 (amended): for every batch whose loop completes without a raise,
`score` returns 200 with one entry per row in input order, where each
row failing the shape check contributes the `{"error": "Invalid row
format"}` entry — a partial array, not a whole-batch rejection. -/
theorem C1_batch_partial_results (now : String) (body : Json)
    (rows entries : List Json)
    (hc : pyContains body "data" = Except.ok true)
    (hg : pyGetItem body "data" = Except.ok (Json.arr rows))
    (he : scoreRows rows = Except.ok entries) :
    score now body = (200, Json.arr entries) ∧
    entries.length = rows.length ∧
    ∀ i row, rows.get? i = some row → rowOk row = false →
      entries.get? i = some invalidRowEntry := by
  have hd : dataBranchRows body = Except.ok (some rows) := by
    simp [dataBranchRows, hc, hg]
  have hs : score now body = (200, Json.arr entries) := by
    simp [score, scoreCore, hd, he]
  exact ⟨hs, scoreRows_ok_length rows entries he,
         scoreRows_ok_invalid_at rows entries he⟩

/-- Witness for the amended C1 theorem at the three-row batch. -/
theorem C1_batch_partial_results_witness :
    score "t" batchBody3 = (200, Json.arr entries3) ∧
    entries3.length = rows3.length ∧
    ∀ i row, rows3.get? i = some row → rowOk row = false →
      entries3.get? i = some invalidRowEntry :=
  C1_batch_partial_results "t" batchBody3 rows3 entries3 rfl rfl rfl

/-- C2: on a payload carrying both `features` and `data`, the `data`
interpretation wins, not the `features` one: the combined payload
produces the batch-shaped (array) response of its `data` value, while
the same `features` value alone would give a single-object response. -/
theorem C2_features_first_cx :
    score "t" (Json.obj [("features", Json.arr [Json.num (-1)]),
                         ("data", Json.arr [Json.arr [Json.num 1]])]) =
      (200, Json.arr [mockEntry true]) ∧
    score "t" (Json.obj [("features", Json.arr [Json.num (-1)])]) =
      (200, mockEntry false) ∧
    Json.arr [mockEntry true] ≠ mockEntry false :=
  ⟨rfl, rfl, fun h => by simp [mockEntry] at h⟩

/-- C2 (amended): the handler checks the `data` key first; whenever the
`data` condition holds, the response is exactly the response of the
payload stripped to its `data` value — the `features` key is ignored. -/
theorem C2_data_checked_first (now : String) (body : Json) (rows : List Json)
    (hc : pyContains body "data" = Except.ok true)
    (hg : pyGetItem body "data" = Except.ok (Json.arr rows)) :
    score now body = score now (Json.obj [("data", Json.arr rows)]) := by
  have hL : dataBranchRows body = Except.ok (some rows) := by
    simp [dataBranchRows, hc, hg]
  have hR : dataBranchRows (Json.obj [("data", Json.arr rows)]) =
      Except.ok (some rows) := rfl
  simp [score, scoreCore, hL, hR]

/-- Witness for the amended C2 theorem. -/
theorem C2_data_checked_first_witness :
    score "t" (Json.obj [("features", Json.arr [Json.num (-1)]),
                         ("data", Json.arr [Json.arr [Json.num 1]])]) =
    score "t" (Json.obj [("data", Json.arr [Json.arr [Json.num 1]])]) :=
  C2_data_checked_first "t"
    (Json.obj [("features", Json.arr [Json.num (-1)]),
               ("data", Json.arr [Json.arr [Json.num 1]])])
    [Json.arr [Json.num 1]] rfl rfl

/-- C3: a flat list of numbers under `data` is NOT treated as a single
row: each scalar is iterated as a row, fails the row shape check, and
the result is a 200 array of per-row error entries — unlike the
single-object response the same list produces under `features`. -/
theorem C3_flat_data_cx :
    score "t" (Json.obj [("data", Json.arr [Json.num 1, Json.num 2])]) =
      (200, Json.arr [invalidRowEntry, invalidRowEntry]) ∧
    score "t" (Json.obj [("features", Json.arr [Json.num 1, Json.num 2])]) =
      (200, mockEntry true) ∧
    Json.arr [invalidRowEntry, invalidRowEntry] ≠ mockEntry true :=
  ⟨rfl, rfl, fun h => by simp [mockEntry] at h⟩

/-- C3 (amended): for every flat list of numbers under the `data` key,
`score` treats each number as a row, every such row fails the
`isinstance(row, list)` check, and the response is 200 with one
`{"error": "Invalid row format"}` entry per element. -/
theorem C3_flat_data_rows_rejected (now : String) (qs : List ℚ) :
    score now (Json.obj [("data", Json.arr (qs.map Json.num))]) =
    (200, Json.arr (List.replicate qs.length invalidRowEntry)) := by
  have hrows : ∀ l : List ℚ, scoreRows (l.map Json.num) =
      Except.ok (List.replicate l.length invalidRowEntry) := by
    intro l
    induction l with
    | nil => rfl
    | cons q rest ih =>
      simp only [List.map_cons, scoreRows, rowEntry, List.length_cons,
        List.replicate_succ, ih]
  have hd : dataBranchRows (Json.obj [("data", Json.arr (qs.map Json.num))]) =
      Except.ok (some (qs.map Json.num)) := rfl
  simp [score, scoreCore, hd, hrows qs]

/-- C4: a `features` payload of exactly 20 elements accepted by the
shape validator is NOT always answered with 200: when the model
invocation raises (here, the handle holds no classifier, the code's
own `ValueError("Model not loaded")`), the broad handler returns the
500 failure envelope instead. -/
theorem C4_accepted_without_200_cx :
    predict_route MLModel.init "t" goodBody =
      (500, failBody "Model not loaded" "t") ∧
    (500 : Nat) ≠ 200 :=
  ⟨rfl, by decide⟩

/-- C4 (amended): a `features` value that is not a list or has length
other than 20 yields the 400 error body without consulting the model
handle (the response is independent of it); an accepted 20-element
list leads to a model invocation whose success gives the 200 success
envelope and whose raise gives the 500 failure envelope. -/
theorem C4_predict_validation (m m2 : MLModel) (now : String) (body f : Json)
    (hc : pyContains body "features" = Except.ok true)
    (hg : pyGetItem body "features" = Except.ok f) :
    ((∀ xs, f ≠ Json.arr xs) →
        predict_route m now body =
          (400, Json.obj
            [("error", Json.str "Features must be a list of 20 numbers")]) ∧
        predict_route m now body = predict_route m2 now body) ∧
    (∀ xs, f = Json.arr xs → xs.length ≠ 20 →
        predict_route m now body =
          (400, Json.obj
            [("error", Json.str "Features must be a list of 20 numbers")]) ∧
        predict_route m now body = predict_route m2 now body) ∧
    (∀ xs result, f = Json.arr xs → xs.length = 20 →
        MLModel.predict m xs = Except.ok result →
        predict_route m now body = (200, successBody result now)) ∧
    (∀ xs e, f = Json.arr xs → xs.length = 20 →
        MLModel.predict m xs = Except.error e →
        predict_route m now body = (500, failBody e now)) := by
  refine ⟨?_, ?_, ?_, ?_⟩
  · intro hf
    have h40 : ∀ mm : MLModel, predict_route mm now body =
        (400, Json.obj
          [("error", Json.str "Features must be a list of 20 numbers")]) := by
      intro mm
      cases f with
      | arr xs => exact absurd rfl (hf xs)
      | null => simp [predict_route, hc, hg]
      | bool b => simp [predict_route, hc, hg]
      | num q => simp [predict_route, hc, hg]
      | str s => simp [predict_route, hc, hg]
      | obj fields => simp [predict_route, hc, hg]
    exact ⟨h40 m, by rw [h40 m, h40 m2]⟩
  · intro xs hf hlen
    subst hf
    have h40 : ∀ mm : MLModel, predict_route mm now body =
        (400, Json.obj
          [("error", Json.str "Features must be a list of 20 numbers")]) := by
      intro mm
      simp [predict_route, hc, hg, hlen]
    exact ⟨h40 m, by rw [h40 m, h40 m2]⟩
  · intro xs result hf hlen hp
    subst hf
    simp [predict_route, hc, hg, hlen, hp]
  · intro xs e hf hlen hp
    subst hf
    simp [predict_route, hc, hg, hlen, hp]

/-- Witness for the amended C4 theorem: a loaded handle and a valid
20-element payload give the 200 success envelope. -/
theorem C4_predict_validation_witness :
    predict_route loadedModel "t" goodBody =
      (200, successBody (Json.obj
        [("prediction", Json.num 1),
         ("probabilities", Json.arr [Json.num (3/10), Json.num (7/10)]),
         ("model_version", Json.str "1.0.0")]) "t") :=
  (C4_predict_validation loadedModel MLModel.init "t" goodBody
      (Json.arr feats20) rfl rfl).2.2.1 feats20
    (Json.obj
      [("prediction", Json.num 1),
       ("probabilities", Json.arr [Json.num (3/10), Json.num (7/10)]),
       ("model_version", Json.str "1.0.0")])
    rfl rfl rfl

/-- C5: the handler never checks element values: a 20-element
`features` list whose last element is the string `"oops"` passes the
shape check, reaches the classifier, and (with a classifier that
accepts it) yields the 200 success envelope — not the 400-class
`InvalidValueError` response the claim promises. -/
theorem C5_no_element_check_cx :
    predict_route loadedModel "t" strElemBody =
      (200, successBody (Json.obj
        [("prediction", Json.num 1),
         ("probabilities", Json.arr [Json.num (3/10), Json.num (7/10)]),
         ("model_version", Json.str "1.0.0")]) "t") ∧
    (200 : Nat) ≠ 400 :=
  ⟨rfl, by decide⟩

/-- C5 (amended): validation is shape-only; for every accepted
20-element list — whatever its elements and whatever the resident
classifier does — the response status is 200 or 500, never the
400-class client error the claim describes. -/
theorem C5_shape_only_validation (m : MLModel) (now : String) (body : Json)
    (xs : List Json)
    (hc : pyContains body "features" = Except.ok true)
    (hg : pyGetItem body "features" = Except.ok (Json.arr xs))
    (hlen : xs.length = 20) :
    (predict_route m now body).1 ≠ 400 ∧
    ((predict_route m now body).1 = 200 ∨
     (predict_route m now body).1 = 500) := by
  cases hp : MLModel.predict m xs with
  | ok result =>
    have hr : predict_route m now body = (200, successBody result now) := by
      simp [predict_route, hc, hg, hlen, hp]
    rw [hr]
    exact ⟨by simp, Or.inl rfl⟩
  | error e =>
    have hr : predict_route m now body = (500, failBody e now) := by
      simp [predict_route, hc, hg, hlen, hp]
    rw [hr]
    exact ⟨by simp, Or.inr rfl⟩

/-- Witness for the amended C5 theorem at the string-element payload. -/
theorem C5_shape_only_validation_witness :
    (predict_route loadedModel "t" strElemBody).1 ≠ 400 ∧
    ((predict_route loadedModel "t" strElemBody).1 = 200 ∨
     (predict_route loadedModel "t" strElemBody).1 = 500) :=
  C5_shape_only_validation loadedModel "t" strElemBody featsStr rfl rfl rfl

/-- C6: absent and corrupt artifact files are NOT treated identically:
with no file at the model path `load_model` trains a fresh classifier,
but with a corrupt file it re-raises the deserialization error, so
startup fails instead of falling through to training. -/
theorem C6_corrupt_artifact_cx :
    MLModel.load_model envW MLModel.init fsCorrupt =
      Except.error "could not deserialize artifact" ∧
    MLModel.load_model envW MLModel.init fsEmpty =
      Except.ok ({ MLModel.init with model := some envW.trained },
                 joblib_dump envW.trained "model.pkl" fsEmpty) :=
  ⟨rfl, rfl⟩

/-- C6 (amended): `load_model` falls through to training exactly when
the artifact path is absent; a present-but-corrupt file propagates the
deserialization error (startup fails), and a good file is loaded
without training. -/
theorem C6_load_trains_only_when_absent (env : TrainEnv) (m : MLModel)
    (fs : FS) :
    (fs m.model_path = none →
       MLModel.load_model env m fs =
         Except.ok ({ m with model := some env.trained },
                    joblib_dump env.trained m.model_path fs)) ∧
    (fs m.model_path = some Artifact.corrupt →
       MLModel.load_model env m fs =
         Except.error "could not deserialize artifact") ∧
    (∀ clf, fs m.model_path = some (Artifact.good clf) →
       MLModel.load_model env m fs =
         Except.ok ({ m with model := some clf }, fs)) := by
  refine ⟨?_, ?_, ?_⟩
  · intro h
    simp [MLModel.load_model, MLModel.train_model, h]
  · intro h
    simp [MLModel.load_model, joblib_load, h]
  · intro clf h
    simp [MLModel.load_model, joblib_load, h]

/-- Witness for the amended C6 theorem at the corrupt filesystem. -/
theorem C6_load_trains_only_when_absent_witness :
    MLModel.load_model envW MLModel.init fsCorrupt =
      Except.error "could not deserialize artifact" :=
  (C6_load_trains_only_when_absent envW MLModel.init fsCorrupt).2.1 rfl

/-- C7: the not-ready branch returns 503 with a body holding only
`status` and `message` — there is no `timestamp` field, contrary to
the claimed `{status, timestamp, message}` body. -/
theorem C7_readiness_cx :
    readiness_check MLModel.init "t" =
      (503, Json.obj [("status", Json.str "not_ready"),
                      ("message", Json.str "Model not loaded")]) ∧
    Json.hasKey (readiness_check MLModel.init "t").2 "timestamp" = false :=
  ⟨rfl, rfl⟩

/-- C7 (amended): readiness returns 200 `{status:"ready", timestamp}`
exactly when a classifier is resident, and 503 `{status:"not_ready",
message}` (without a timestamp) exactly when the handle is empty. -/
theorem C7_readiness_status (m : MLModel) (now : String) :
    (readiness_check m now =
        (200, Json.obj [("status", Json.str "ready"),
                        ("timestamp", Json.str now)]) ↔
      m.model.isSome = true) ∧
    (readiness_check m now =
        (503, Json.obj [("status", Json.str "not_ready"),
                        ("message", Json.str "Model not loaded")]) ↔
      m.model = none) := by
  cases hm : m.model with
  | none => simp [readiness_check, hm]
  | some clf => simp [readiness_check, hm]

/-- C8: with an empty handle, `MLModel.predict` raises
`ValueError("Model not loaded")`, and the `/predict` handler surfaces
it as the 500 failure envelope — never as a 400 client error. -/
theorem C8_model_not_loaded_500 (m : MLModel) (now : String) (body : Json)
    (xs : List Json)
    (hm : m.model = none)
    (hc : pyContains body "features" = Except.ok true)
    (hg : pyGetItem body "features" = Except.ok (Json.arr xs))
    (hlen : xs.length = 20) :
    MLModel.predict m xs = Except.error "Model not loaded" ∧
    predict_route m now body = (500, failBody "Model not loaded" now) ∧
    (predict_route m now body).1 ≠ 400 := by
  have hp : MLModel.predict m xs = Except.error "Model not loaded" := by
    simp [MLModel.predict, hm]
  have hr : predict_route m now body =
      (500, failBody "Model not loaded" now) := by
    simp [predict_route, hc, hg, hlen, hp]
  exact ⟨hp, hr, by rw [hr]; simp⟩

/-- Witness for the C8 theorem at the empty handle and a valid payload. -/
theorem C8_model_not_loaded_500_witness :
    MLModel.predict MLModel.init feats20 =
      Except.error "Model not loaded" ∧
    predict_route MLModel.init "t" goodBody =
      (500, failBody "Model not loaded" "t") ∧
    (predict_route MLModel.init "t" goodBody).1 ≠ 400 :=
  C8_model_not_loaded_500 MLModel.init "t" goodBody feats20 rfl rfl rfl rfl

/-- C9: retraining replaces only the wrapped classifier (and rewrites
the artifact file at the model path): the version string and artifact
path are unchanged, and `/metrics` reports the identical body before
and after a `/retrain`. -/
theorem C9_retrain_preserves_version (env : TrainEnv) (m : MLModel) (fs : FS)
    (now now2 : String) :
    (MLModel.train_model env m fs).1.model_version = m.model_version ∧
    (MLModel.train_model env m fs).1.model_path = m.model_path ∧
    (MLModel.train_model env m fs).1.model = some env.trained ∧
    (MLModel.train_model env m fs).2.1 m.model_path =
      some (Artifact.good env.trained) ∧
    metrics_route (retrain_route env m fs now).1 now2 =
      metrics_route m now2 := by
  refine ⟨rfl, rfl, rfl, ?_, rfl⟩
  simp [MLModel.train_model, joblib_dump]

/-- C10: a request body that decodes to a JSON string does NOT raise in
the membership test (Python's `in` on strings is a substring test):
the body `"hello"` reaches the missing-features branch and gets the
400 response, not the claimed 500 envelope. -/
theorem C10_string_body_cx :
    predict_route MLModel.init "t" (Json.str "hello") =
      (400, Json.obj [("error", Json.str "Features not provided")]) ∧
    (400 : Nat) ≠ 500 :=
  ⟨rfl, by decide⟩

/-- C10 (amended): only `null`, boolean and number bodies make the
key-membership test raise (yielding the 500 failure envelope); a
string body is searched for `"features"` as a substring and an array
body for the string element `"features"`, so such bodies without an
occurrence reach the 400 missing-features branch. -/
theorem C10_nonobject_body_dispatch (m : MLModel) (now : String) :
    (∀ body, body = Json.null ∨ (∃ b, body = Json.bool b) ∨
        (∃ q, body = Json.num q) →
      predict_route m now body =
        (500, failBody "argument of type is not iterable" now)) ∧
    (∀ s, charsContain (String.toList "features") (String.toList s) = false →
      predict_route m now (Json.str s) =
        (400, Json.obj [("error", Json.str "Features not provided")])) ∧
    (∀ xs, (∀ x ∈ xs, Json.eqStr x "features" = false) →
      predict_route m now (Json.arr xs) =
        (400, Json.obj [("error", Json.str "Features not provided")])) := by
  refine ⟨?_, ?_, ?_⟩
  · rintro body (rfl | ⟨b, rfl⟩ | ⟨q, rfl⟩) <;> rfl
  · intro s h
    have hp : pyContains (Json.str s) "features" = Except.ok false := by
      simp only [pyContains]
      rw [h]
    simp only [predict_route, hp]
  · intro xs h
    have ha : xs.any (fun x => Json.eqStr x "features") = false := by
      rw [List.any_eq_false]
      intro x hx
      simp [h x hx]
    have hp : pyContains (Json.arr xs) "features" = Except.ok false := by
      simp only [pyContains]
      rw [ha]
    simp only [predict_route, hp]

/-- Witness for the amended C10 theorem at the `null` body. -/
theorem C10_nonobject_body_dispatch_witness :
    predict_route MLModel.init "t" Json.null =
      (500, failBody "argument of type is not iterable" "t") :=
  (C10_nonobject_body_dispatch MLModel.init "t").1 Json.null (Or.inl rfl)
